import Mathlib

/-!
Verification of the record-management client in `src/pages/Index.tsx`
(and, where the backend endpoint is absent from the sources, a model of the
Record Service built from the specification).

The client component is embedded shallowly: its React state becomes a
`ClientState` record, and each event handler (`fetchEntries`, `handleSubmit`,
`handleDelete`) becomes a pure function from the current state and the
outcomes of the network calls it performs to a `StepResult` recording the
final state, the toast notices emitted, the HTTP requests issued, and the
sequence of values written to the `isLoading` flag.
-/

/-- The service endpoint URL bound to `API_URL` in `Index.tsx`. -/
def API_URL : String := "https://functions.poehali.dev/729fff79-f8f6-4bdf-a875-5d762d756605"

/-- The `DemoEntry` interface of `Index.tsx`: `description` is `string | null`. -/
structure DemoEntry where
  id : Int
  title : String
  description : Option String
  created_at : String
deriving DecidableEq, Repr

/-- Body of a Create request, `{title, description}`.  The wire format lets
`description` be absent (`none`); the client always supplies a string. -/
structure CreateBody where
  title : String
  description : Option String
deriving DecidableEq, Repr

/-- An HTTP request as issued through `fetch` in `Index.tsx`. -/
structure HttpRequest where
  url : String
  method : String
  body : Option CreateBody
deriving DecidableEq, Repr

/-- A toast notice as passed to `toast({...})` in `Index.tsx`;
`destructive` records `variant: 'destructive'`. -/
structure ToastMsg where
  title : String
  description : String
  destructive : Bool
deriving DecidableEq, Repr

/-- Toast shown when loading the list fails (`fetchEntries` catch branch). -/
def toastLoadError : ToastMsg :=
  { title := "Ошибка", description := "Не удалось загрузить записи", destructive := true }

/-- Toast shown when the title is empty (`handleSubmit` validation). -/
def toastFillTitle : ToastMsg :=
  { title := "Внимание", description := "Заполните заголовок", destructive := true }

/-- Toast shown when create succeeds. -/
def toastCreateOk : ToastMsg :=
  { title := "Успешно", description := "Запись добавлена в облачную базу", destructive := false }

/-- Toast shown when the create call throws (`handleSubmit` catch branch). -/
def toastSaveError : ToastMsg :=
  { title := "Ошибка", description := "Не удалось сохранить запись", destructive := true }

/-- Toast shown when delete succeeds. -/
def toastDeleteOk : ToastMsg :=
  { title := "Удалено", description := "Запись удалена из облачной базы", destructive := false }

/-- Toast shown when the delete call throws (`handleDelete` catch branch). -/
def toastDeleteError : ToastMsg :=
  { title := "Ошибка", description := "Не удалось удалить запись", destructive := true }

/-- The React state of the `Index` component: `entries`, `title`,
`description`, `isLoading` (the tab state is presentation only). -/
structure ClientState where
  entries : List DemoEntry
  title : String
  description : String
  isLoading : Bool
deriving DecidableEq, Repr

/-- Outcome of the GET (List) call as observed by `fetchEntries`: either the
`fetch`/`response.json()` chain throws, or it yields `data.entries`. -/
inductive ListOutcome where
  | throws : ListOutcome
  | returns : List DemoEntry → ListOutcome
deriving DecidableEq, Repr

/-- Outcome of a POST or DELETE call: either `fetch` throws, or it yields a
response whose `ok` flag is as given. -/
inductive CallOutcome where
  | throws : CallOutcome
  | returns : Bool → CallOutcome
deriving DecidableEq, Repr

/-- Everything one handler invocation produces: the state after all its
effects settle, the toasts raised, the requests issued, and the successive
values written through `setIsLoading`. -/
structure StepResult where
  state : ClientState
  toasts : List ToastMsg
  requests : List HttpRequest
  loadingSets : List Bool
deriving DecidableEq, Repr

/-- The List request: `fetch(API_URL)` — GET, no body. -/
def listRequest : HttpRequest :=
  { url := API_URL, method := "GET", body := none }

/-- The Create request: POST of `JSON.stringify({ title, description })`.
Both fields come from string-valued state, so `description` is always a
present string on the wire. -/
def createRequest (title description : String) : HttpRequest :=
  { url := API_URL, method := "POST", body := some { title := title, description := some description } }

/-- The Delete request: `fetch(API_URL + "?id=" + id, { method: 'DELETE' })`
— id in the query string, no body. -/
def deleteRequest (id : Int) : HttpRequest :=
  { url := API_URL ++ "?id=" ++ toString id, method := "DELETE", body := none }

/-- The JavaScript `String.prototype.trim()` used in `handleSubmit`'s guard
`if (!title.trim())`: removes whitespace from both ends of the string. -/
def jsTrim (s : String) : String :=
  String.mk (((s.data.dropWhile Char.isWhitespace).reverse.dropWhile Char.isWhitespace).reverse)

/-- `fetchEntries` from `Index.tsx`: issues the List request; on success
replaces `entries` with `data.entries`; if the call throws, raises the load
error toast and leaves the state untouched. -/
def fetchEntries (s : ClientState) (o : ListOutcome) : StepResult :=
  match o with
  | .throws =>
      { state := s, toasts := [toastLoadError], requests := [listRequest], loadingSets := [] }
  | .returns es =>
      { state := { s with entries := es }, toasts := [], requests := [listRequest], loadingSets := [] }

/-- The component's initial state: `useState` initialisers. -/
def initialState : ClientState :=
  { entries := [], title := "", description := "", isLoading := false }

/-- The mount effect: `useEffect(() => { fetchEntries(); }, [])` runs
`fetchEntries` once from the initial state. -/
def initialMount (o : ListOutcome) : StepResult :=
  fetchEntries initialState o

/-- `handleSubmit` from `Index.tsx`.  If the trimmed title is empty it toasts
a warning and returns before any network call.  Otherwise it sets
`isLoading` to `true`, issues the POST; on an ok response it toasts success,
clears both inputs and runs `fetchEntries`; on a non-ok response it does
nothing further; if the call throws it toasts the save error.  The `finally`
block sets `isLoading` back to `false` on every one of these paths. -/
def handleSubmit (s : ClientState) (post : CallOutcome) (refetch : ListOutcome) : StepResult :=
  if jsTrim s.title = "" then
    { state := s, toasts := [toastFillTitle], requests := [], loadingSets := [] }
  else
    let req := createRequest s.title s.description
    match post with
    | .returns true =>
        let r := fetchEntries { s with title := "", description := "" } refetch
        { state := { r.state with isLoading := false },
          toasts := toastCreateOk :: r.toasts,
          requests := req :: r.requests,
          loadingSets := [true, false] }
    | .returns false =>
        { state := { s with isLoading := false },
          toasts := [],
          requests := [req],
          loadingSets := [true, false] }
    | .throws =>
        { state := { s with isLoading := false },
          toasts := [toastSaveError],
          requests := [req],
          loadingSets := [true, false] }

/-- `handleDelete` from `Index.tsx`: issues the DELETE request; on an ok
response it toasts success and runs `fetchEntries`; on a non-ok response it
does nothing further; if the call throws it toasts the delete error.  It
never touches `isLoading`. -/
def handleDelete (s : ClientState) (id : Int) (del : CallOutcome) (refetch : ListOutcome) : StepResult :=
  let req := deleteRequest id
  match del with
  | .returns true =>
      let r := fetchEntries s refetch
      { state := r.state,
        toasts := toastDeleteOk :: r.toasts,
        requests := req :: r.requests,
        loadingSets := [] }
  | .returns false =>
      { state := s, toasts := [], requests := [req], loadingSets := [] }
  | .throws =>
      { state := s, toasts := [toastDeleteError], requests := [req], loadingSets := [] }

/-- The submit button's `disabled={isLoading}` prop. -/
def submitDisabled (s : ClientState) : Bool := s.isLoading

/-- Modelled from the spec: the Record Service backend (the cloud function
behind `API_URL`) is not among the repository sources; only the migration
defining `demo_entries` is.  Its Delete operation is modelled from §4.1 of
the specification: given a well-formed `id` it deletes the row with that id
if present, reports success (2xx) whether or not such a row exists, and
removes zero or one row. -/
def serverDelete (table : List DemoEntry) (id : Int) : Nat × List DemoEntry :=
  (200, table.filter (fun e => decide (e.id ≠ id)))

/-- A concrete entry used as a test vector. -/
def sampleEntry : DemoEntry :=
  { id := 1, title := "Hello", description := none, created_at := "2024-01-01" }

/-- A concrete client state displaying `sampleEntry`, used as a test vector. -/
def sampleListState : ClientState :=
  { entries := [sampleEntry], title := "", description := "", isLoading := false }

/-- C1: for every title whose whitespace-trimmed form is empty, `handleSubmit`
returns after raising the warning toast: it issues no HTTP request, so no
Create request reaches the server, and the state is unchanged. -/
theorem C1_empty_title_rejected_locally (s : ClientState) (post : CallOutcome)
    (refetch : ListOutcome) (h : jsTrim s.title = "") :
    (handleSubmit s post refetch).requests = [] ∧
    (handleSubmit s post refetch).toasts = [toastFillTitle] ∧
    (handleSubmit s post refetch).state = s := by
  simp [handleSubmit, h]

/-- Witness for C1 at the concrete whitespace-only title "   ". -/
theorem C1_empty_title_rejected_locally_witness :
    (handleSubmit { entries := [], title := "   ", description := "x", isLoading := false }
        (.returns true) (.returns [])).requests = [] ∧
    (handleSubmit { entries := [], title := "   ", description := "x", isLoading := false }
        (.returns true) (.returns [])).toasts = [toastFillTitle] ∧
    (handleSubmit { entries := [], title := "   ", description := "x", isLoading := false }
        (.returns true) (.returns [])).state =
      { entries := [], title := "   ", description := "x", isLoading := false } :=
  C1_empty_title_rejected_locally _ _ _ (by decide)

/-- C2 counterexample: submit with title "Hello" where the server answers
with a non-success status (`ok = false`) — the handler raises no toast at
all, so no transient error notice is shown, contradicting the claim. -/
theorem C2_non_ok_shows_no_notice :
    (handleSubmit { entries := [], title := "Hello", description := "World", isLoading := false }
        (.returns false) (.returns [])).toasts = [] := by
  decide

/-- C2 (amended): for a create submission that passes validation, a thrown
network call raises the save-error toast, while a non-success response
status raises no toast; in both failure cases the typed title and
description are preserved unchanged. -/
theorem C2_failure_preserves_inputs (s : ClientState) (refetch : ListOutcome)
    (h : jsTrim s.title ≠ "") :
    ((handleSubmit s .throws refetch).toasts = [toastSaveError] ∧
      (handleSubmit s .throws refetch).state.title = s.title ∧
      (handleSubmit s .throws refetch).state.description = s.description) ∧
    ((handleSubmit s (.returns false) refetch).toasts = [] ∧
      (handleSubmit s (.returns false) refetch).state.title = s.title ∧
      (handleSubmit s (.returns false) refetch).state.description = s.description) := by
  simp [handleSubmit, h]

/-- Witness for the amended C2 at the concrete title "Hello". -/
theorem C2_failure_preserves_inputs_witness :
    ((handleSubmit { entries := [], title := "Hello", description := "World", isLoading := false }
        .throws .throws).toasts = [toastSaveError] ∧
      (handleSubmit { entries := [], title := "Hello", description := "World", isLoading := false }
        .throws .throws).state.title = "Hello" ∧
      (handleSubmit { entries := [], title := "Hello", description := "World", isLoading := false }
        .throws .throws).state.description = "World") ∧
    ((handleSubmit { entries := [], title := "Hello", description := "World", isLoading := false }
        (.returns false) .throws).toasts = [] ∧
      (handleSubmit { entries := [], title := "Hello", description := "World", isLoading := false }
        (.returns false) .throws).state.title = "Hello" ∧
      (handleSubmit { entries := [], title := "Hello", description := "World", isLoading := false }
        (.returns false) .throws).state.description = "World") :=
  C2_failure_preserves_inputs _ _ (by decide)

/-- C3: the loading flag traces idle → submitting → idle — `setIsLoading`
is written `[true, false]` exactly when the trimmed title is non-empty (so
`true` only after validation passes, back to `false` on every exit, whether
the call succeeds, returns non-ok, or throws), it is never written on a
rejected submission, and the submit control is disabled exactly when the
flag is set. -/
theorem C3_loading_state_machine (s : ClientState) (post : CallOutcome) (refetch : ListOutcome) :
    (handleSubmit s post refetch).loadingSets =
      (if jsTrim s.title = "" then [] else [true, false]) ∧
    (handleSubmit s post refetch).state.isLoading =
      (if jsTrim s.title = "" then s.isLoading else false) ∧
    submitDisabled s = s.isLoading := by
  refine ⟨?_, ?_, rfl⟩ <;>
  · by_cases h : jsTrim s.title = ""
    · simp [handleSubmit, h]
    · cases post with
      | throws => simp [handleSubmit, h]
      | returns b => cases b <;> cases refetch <;> simp [handleSubmit, fetchEntries, h]

/-- C4: on an ok create response the client clears both input fields and
re-issues the List call; on a non-ok response or a thrown call it clears
neither field and issues no List call. -/
theorem C4_success_clears_and_refetches (s : ClientState) (post : CallOutcome)
    (refetch : ListOutcome) (h : jsTrim s.title ≠ "") :
    (post = .returns true →
      (handleSubmit s post refetch).state.title = "" ∧
      (handleSubmit s post refetch).state.description = "" ∧
      (handleSubmit s post refetch).requests =
        [createRequest s.title s.description, listRequest]) ∧
    (post ≠ .returns true →
      (handleSubmit s post refetch).state.title = s.title ∧
      (handleSubmit s post refetch).state.description = s.description ∧
      listRequest ∉ (handleSubmit s post refetch).requests) := by
  constructor
  · rintro rfl
    cases refetch <;> simp [handleSubmit, fetchEntries, h]
  · intro hne
    cases post with
    | throws =>
        simp [handleSubmit, h, createRequest, listRequest]
    | returns b =>
        cases b with
        | false => simp [handleSubmit, h, createRequest, listRequest]
        | true => exact absurd rfl hne

/-- Witness for C4 at the concrete title "Hello". -/
theorem C4_success_clears_and_refetches_witness :
    (handleSubmit { entries := [], title := "Hello", description := "World", isLoading := false }
        (.returns true) (.returns [])).state.title = "" ∧
    (handleSubmit { entries := [], title := "Hello", description := "World", isLoading := false }
        (.returns true) (.returns [])).state.description = "" ∧
    (handleSubmit { entries := [], title := "Hello", description := "World", isLoading := false }
        (.returns true) (.returns [])).requests = [createRequest "Hello" "World", listRequest] :=
  (C4_success_clears_and_refetches _ _ _ (by decide)).1 rfl

/-- C5 counterexample: delete of the displayed row id 1 where the server
answers with a non-success status — the handler raises no toast at all, so
no transient error notice is shown, contradicting the claim (the row does
remain and the collection is unchanged). -/
theorem C5_non_ok_delete_shows_no_notice :
    (handleDelete sampleListState 1 (.returns false) (.returns [])).toasts = [] ∧
    (handleDelete sampleListState 1 (.returns false) (.returns [])).state.entries =
      [sampleEntry] := by
  decide

/-- C5 (amended): the collection is modified only through the re-issued List
after an ok delete response; on a thrown call the delete-error toast is
raised, while on a non-success response no toast is raised; in both failure
cases the state — hence the collection and the targeted row — is unchanged. -/
theorem C5_delete_frame (s : ClientState) (id : Int) (refetch : ListOutcome) :
    ((handleDelete s id (.returns true) refetch).state.entries =
      (match refetch with | .throws => s.entries | .returns es => es)) ∧
    ((handleDelete s id .throws refetch).state = s ∧
      (handleDelete s id .throws refetch).toasts = [toastDeleteError]) ∧
    ((handleDelete s id (.returns false) refetch).state = s ∧
      (handleDelete s id (.returns false) refetch).toasts = []) := by
  cases refetch <;> simp [handleDelete, fetchEntries]

/-- C6: on initial display exactly one List request is issued; on success the
collection is replaced with the returned entries, and on failure the load
error toast is raised and the collection stays empty. -/
theorem C6_initial_list (o : ListOutcome) :
    (initialMount o).requests = [listRequest] ∧
    (initialMount o).state.entries =
      (match o with | .throws => [] | .returns es => es) ∧
    (initialMount o).toasts =
      (match o with | .throws => [toastLoadError] | .returns _ => []) := by
  cases o <;> simp [initialMount, initialState, fetchEntries]

/-- C7: the only DELETE-verb request a delete action issues carries the id as
a query parameter appended to the endpoint URL and has no body. -/
theorem C7_delete_request_shape (s : ClientState) (id : Int) (del : CallOutcome)
    (refetch : ListOutcome) :
    ((handleDelete s id del refetch).requests.filter (fun r => r.method == "DELETE")) =
      [{ url := API_URL ++ "?id=" ++ toString id, method := "DELETE", body := none }] := by
  cases del with
  | throws => simp [handleDelete, deleteRequest, List.filter]
  | returns b =>
      cases b <;> cases refetch <;>
        simp [handleDelete, fetchEntries, deleteRequest, listRequest, List.filter]

/-- C8: the modelled server Delete reports success (200) for every
well-formed id whether or not a matching row exists, keeps exactly the rows
with a different id, and deleting the same id again still succeeds and
removes zero rows (idempotence). -/
theorem C8_server_delete_idempotent (table : List DemoEntry) (id : Int) :
    (serverDelete table id).1 = 200 ∧
    serverDelete (serverDelete table id).2 id = (200, (serverDelete table id).2) ∧
    (∀ e, e ∈ (serverDelete table id).2 ↔ (e ∈ table ∧ e.id ≠ id)) := by
  refine ⟨rfl, ?_, ?_⟩
  · simp only [serverDelete, List.filter_filter, Prod.mk.injEq, true_and]
    congr 1
    funext e
    simp [Bool.and_self]
  · intro e
    simp [serverDelete, List.mem_filter]

/-- C9: every POST request `handleSubmit` issues carries the title verbatim
(untrimmed) and a description field that is a present string — never the
absent representation; no POST is issued when validation rejects. -/
theorem C9_create_body_shape (s : ClientState) (post : CallOutcome) (refetch : ListOutcome) :
    ((handleSubmit s post refetch).requests.filter (fun r => r.method == "POST")) =
      (if jsTrim s.title = "" then []
       else [{ url := API_URL, method := "POST",
               body := some { title := s.title, description := some s.description } }]) := by
  by_cases h : jsTrim s.title = ""
  · simp [handleSubmit, h]
  · cases post with
    | throws => simp [handleSubmit, h, createRequest, List.filter]
    | returns b =>
        cases b <;> cases refetch <;>
          simp [handleSubmit, fetchEntries, h, createRequest, listRequest, List.filter]

/-- C10: a thrown List call leaves the state — in particular the entries
collection — exactly as it was, raising only the load-error toast; the same
holds for the entries after the refetch inside a successful create or
delete. -/
theorem C10_list_failure_frame (s : ClientState) (id : Int) :
    (fetchEntries s .throws).state = s ∧
    (fetchEntries s .throws).toasts = [toastLoadError] ∧
    (handleSubmit s (.returns true) .throws).state.entries = s.entries ∧
    (handleDelete s id (.returns true) .throws).state.entries = s.entries := by
  refine ⟨rfl, rfl, ?_, rfl⟩
  by_cases h : jsTrim s.title = "" <;> simp [handleSubmit, fetchEntries, h]

/-- Witness for C8 at a one-row table whose single row has the deleted id. -/
theorem C8_server_delete_idempotent_witness :
    (serverDelete [sampleEntry] 1).1 = 200 ∧
    serverDelete (serverDelete [sampleEntry] 1).2 1 = (200, (serverDelete [sampleEntry] 1).2) ∧
    (sampleEntry ∈ (serverDelete [sampleEntry] 1).2 ↔ (sampleEntry ∈ [sampleEntry] ∧ sampleEntry.id ≠ 1)) :=
  ⟨(C8_server_delete_idempotent [sampleEntry] 1).1,
   (C8_server_delete_idempotent [sampleEntry] 1).2.1,
   (C8_server_delete_idempotent [sampleEntry] 1).2.2 sampleEntry⟩
